import Mathlib

/-!
Shallow embedding of the buzzflix droplet service (src/app.py) and proofs of
the specification claims about it.

Modelling conventions:
- Timestamps are rationals, measured in days since an arbitrary epoch.  The
  Python code computes `days_between = 7 / frequency` in real arithmetic and
  compares `datetime` values; over ℚ this arithmetic is exact.
- Database tables are lists of records inside a `Store` value.  SQL queries
  of app.py are translated into list traversals; each translated definition
  cites the source lines it embeds.
- The scheduler loop body (one "tick", app.py lines 222-311) is a fold over
  the enumerated series list, threading the store; fresh video identifiers
  (uuid4 in the source) are modelled by a counter threaded through the fold.
-/

/-- Row of the externally owned "User" table (only the columns app.py reads:
`id` and `email`). -/
structure User where
  id : Nat
  email : String
deriving DecidableEq

/-- Row of the externally owned "Subscription" table (columns read in the
join of app.py lines 235-239: `userId`, `planId`, `status`). -/
structure Subscription where
  userId : Nat
  planId : Nat
  status : String
deriving DecidableEq

/-- Row of the externally owned "Plan" table (columns read at app.py line
236: `id`, `name`). -/
structure Plan where
  id : Nat
  name : String
deriving DecidableEq

/-- Row of the "Series" table (the Target of the spec), with the columns
selected by the scheduler query at app.py lines 226-241. -/
structure Series where
  id : Nat
  userId : Nat
  theme : String
  destinationType : String
  destinationId : String
  destinationEmail : String
  voice : String
  language : String
  durationRange : String
  frequency : Nat
  status : String
  createdAt : ℚ
deriving DecidableEq

/-- Row of the "Video" table (the Work Item of the spec), with the columns
written by the insert at app.py lines 275-278. -/
structure Video where
  id : Nat
  seriesId : Nat
  status : String
  createdAt : ℚ
  updatedAt : ℚ
deriving DecidableEq

/-- Row of the "ScheduleEntry" table of the spec data model.  No code under
src/ touches this table; it is used only by the spec-modelled batch
pre-scheduler below. -/
structure ScheduleEntry where
  id : Nat
  seriesId : Nat
  videoId : Nat
  scheduledAt : ℚ
  platform : String
  status : String
deriving DecidableEq

/-- The relational store: one list per table. -/
structure Store where
  users : List User
  subscriptions : List Subscription
  plans : List Plan
  series : List Series
  videos : List Video
  scheduleEntries : List ScheduleEntry
deriving DecidableEq

/-- JSON body sent to the rendering endpoint, app.py lines 284-295. -/
structure LambdaPayload where
  user_id : Nat
  series_id : Nat
  video_id : Nat
  destination : String
  destination_id : String
  destination_email : String
  theme : String
  voice : String
  language : String
  duration_range : String
deriving DecidableEq

/-- Payload built by the scheduler at app.py lines 284-295 from a Series row
and the freshly inserted video id. -/
def mkPayload (s : Series) (videoId : Nat) : LambdaPayload :=
  { user_id := s.userId
    series_id := s.id
    video_id := videoId
    destination := s.destinationType
    destination_id := s.destinationId
    destination_email := s.destinationEmail
    theme := s.theme
    voice := s.voice
    language := s.language
    duration_range := s.durationRange }

/-- Embedding of the pending-count query at app.py lines 263-268:
SELECT COUNT(*) FROM "Video" WHERE "seriesId" = sid AND status = 'pending'. -/
def pendingCount (videos : List Video) (sid : Nat) : Nat :=
  (videos.filter (fun v => v.seriesId == sid && v.status == "pending")).length

/-- Embedding of COALESCE(MAX(v."createdAt"), s."createdAt") from the
scheduler query (app.py line 232): the latest video creation time of the
series, defaulting to the series creation time when it has no video. -/
def lastVideoDate (videos : List Video) (s : Series) : ℚ :=
  match (videos.filter (fun v => v.seriesId == s.id)).map (fun v => v.createdAt) with
  | [] => s.createdAt
  | d :: ds => ds.foldl max d

/-- Embedding of the Subscription/Plan join condition of the scheduler query
(app.py lines 235-239): the user owns a subscription row with status
'active' whose plan exists. -/
def hasActiveSubscription (st : Store) (uid : Nat) : Bool :=
  st.subscriptions.any (fun sub =>
    sub.userId == uid && sub.status == "active" &&
      st.plans.any (fun p => p.id == sub.planId))

/-- Embedding of the inner join with "User" (app.py line 234). -/
def userExists (st : Store) (uid : Nat) : Bool :=
  st.users.any (fun u => u.id == uid)

/-- Embedding of the enumeration query at app.py lines 226-241: all series
with status 'active' whose user exists and holds an active subscription with
an existing plan.  GROUP BY s.id collapses the duplicate rows produced by
the joins, so the result is modelled as one entry per qualifying series row
(a user holding two active subscriptions on plans of distinct names would
yield two SQL rows for the same series; no claim distinguishes that corner,
and the admission logic below is per-series). -/
def eligibleSeries (st : Store) : List Series :=
  st.series.filter (fun s =>
    s.status == "active" && userExists st s.userId && hasActiveSubscription st s.userId)

/-- Outcome of the admission decision for one series within a tick. -/
inductive GateResult where
  | Accept
  | Wait
deriving DecidableEq

/-- Observable store actions of the admitted branch, in program order
(app.py lines 275-297): the INSERT, the commit, and the dispatch call. -/
inductive Event where
  | insert (v : Video)
  | commit
  | dispatch (p : LambdaPayload)
deriving DecidableEq

/-- Result of processing one series in a tick: the store afterwards, the
gate outcome, and the emitted event trace. -/
structure StepOut where
  store : Store
  result : GateResult
  events : List Event
deriving DecidableEq

/-- Embedding of the per-series loop body of the scheduler tick, app.py
lines 246-309: compute `days_between = 7 / frequency` and the due date from
the last video date; when due, count pending videos of the series; when the
count is zero, insert one new Video row with status 'pending' (`newId`
stands for the fresh uuid4), commit, and dispatch the payload; otherwise do
nothing (Wait). -/
def processSeries (now : ℚ) (st : Store) (s : Series) (newId : Nat) : StepOut :=
  let days_between : ℚ := 7 / (s.frequency : ℚ)
  let next_video_date := lastVideoDate st.videos s + days_between
  if next_video_date ≤ now then
    if pendingCount st.videos s.id == 0 then
      let v : Video := { id := newId, seriesId := s.id, status := "pending",
                         createdAt := now, updatedAt := now }
      { store := { st with videos := st.videos ++ [v] }
        result := GateResult.Accept
        events := [Event.insert v, Event.commit, Event.dispatch (mkPayload s newId)] }
    else
      { store := st, result := GateResult.Wait, events := [] }
  else
    { store := st, result := GateResult.Wait, events := [] }

/-- One fold step of a tick: process the series against the accumulated
store, consuming a fresh id exactly when a video is inserted. -/
def tickStep (now : ℚ) (acc : Store × Nat) (s : Series) : Store × Nat :=
  let out := processSeries now acc.1 s acc.2
  (out.store, if out.result = GateResult.Accept then acc.2 + 1 else acc.2)

/-- Embedding of one full scheduler tick, app.py lines 222-311: enumerate
the eligible series once (bulk read), then process each in order. -/
def tick (st : Store) (now : ℚ) (firstId : Nat) : Store × Nat :=
  (eligibleSeries st).foldl (tickStep now) (st, firstId)

-- Concrete fixtures used by witnesses and counterexamples.

/-- Fixture series: active, daily cadence, created at the epoch. -/
def sFix : Series :=
  { id := 1, userId := 1, theme := "t", destinationType := "email",
    destinationId := "d", destinationEmail := "e@x", voice := "v",
    language := "en", durationRange := "30-60", frequency := 7,
    status := "active", createdAt := 0 }

/-- Fixture store: one user with an active subscription owning `sFix`, and
no videos yet. -/
def stFix : Store :=
  { users := [{ id := 1, email := "u@x" }]
    subscriptions := [{ userId := 1, planId := 3, status := "active" }]
    plans := [{ id := 3, name := "PRO" }]
    series := [sFix]
    videos := []
    scheduleEntries := [] }

example : (processSeries 1 stFix sFix 5).result = GateResult.Accept :=
  of_decide_eq_true (by with_unfolding_all rfl)
example : (processSeries (1/2) stFix sFix 5).result = GateResult.Wait :=
  of_decide_eq_true (by with_unfolding_all rfl)

/-- C2: the Admission Gate admits iff the series is due
(now ≥ t0 + 7/f days, t0 the last video date defaulting to the series
creation time) and no pending video exists for the series; when now is
before the due date it returns Wait. -/
theorem gate_accepts_iff_due_and_no_pending (st : Store) (s : Series) (now : ℚ)
    (newId : Nat) (_hf : 0 < s.frequency) :
    ((processSeries now st s newId).result = GateResult.Accept ↔
      lastVideoDate st.videos s + 7 / (s.frequency : ℚ) ≤ now ∧
        pendingCount st.videos s.id = 0) ∧
    (now < lastVideoDate st.videos s + 7 / (s.frequency : ℚ) →
      (processSeries now st s newId).result = GateResult.Wait) := by
  unfold processSeries
  constructor
  · by_cases hdue : lastVideoDate st.videos s + 7 / (s.frequency : ℚ) ≤ now
    · by_cases hp : pendingCount st.videos s.id = 0
      · simp [hdue, hp]
      · simp [hdue, hp]
    · simp [hdue]
  · intro hlt
    have hdue : ¬ lastVideoDate st.videos s + 7 / (s.frequency : ℚ) ≤ now :=
      not_le.mpr hlt
    simp [hdue]

/-- C2 witness: at the fixture store the gate admits at time 1 (the series
is due and has no pending video). -/
theorem gate_accepts_iff_due_and_no_pending_witness :
    (processSeries 1 stFix sFix 5).result = GateResult.Accept :=
  ((gate_accepts_iff_due_and_no_pending stFix sFix 1 5 (by decide)).1).mpr
    (of_decide_eq_true (by with_unfolding_all rfl))

-- Dispatch (app.py trigger_lambda, lines 143-217).

/-- Outcome of the HTTP POST to the rendering endpoint at app.py lines
155-160, seen from the caller: acknowledged within the 1-second timeout,
timed out, or failed with another transport error. -/
inductive HttpOutcome where
  | acknowledged
  | timedOut
  | transportError
deriving DecidableEq

/-- Result of a dispatch call: whether an exception escaped to the caller,
whether the email-notification side effect was attempted, and the store
afterwards. -/
structure DispatchResult where
  raised : Bool
  emailAttempted : Bool
  store : Store
deriving DecidableEq

/-- Embedding of the email-address lookup at app.py lines 171-183:
SELECT u.email FROM "User" u JOIN "Series" s ON s."userId" = u.id
WHERE s.id = seriesId. -/
def findUserEmailForSeries (st : Store) (seriesId : Nat) : Option String :=
  match st.series.find? (fun s => s.id == seriesId) with
  | none => none
  | some s => (st.users.find? (fun u => u.id == s.userId)).map (fun u => u.email)

/-- Embedding of trigger_lambda (app.py lines 143-217).  The HTTP call sits
in its own try block whose except clause catches exactly Timeout (lines
154-163) and logs it as normal, so the timed-out path continues into the
email section like the acknowledged path; any other transport error
propagates to the outer try (line 145) whose except clause (lines 211-217)
logs and swallows it, skipping the email section.  A missing user email
returns early (lines 179-181).  The email section only reads the store; the
EmailNotifier swallows its own SMTP failures (lines 127-133), so nothing in
this function raises to the caller and nothing writes to the store. -/
def trigger_lambda (st : Store) (p : LambdaPayload) (outcome : HttpOutcome) :
    DispatchResult :=
  match outcome with
  | HttpOutcome.transportError =>
      { raised := false, emailAttempted := false, store := st }
  | _ =>
      match findUserEmailForSeries st p.series_id with
      | none => { raised := false, emailAttempted := false, store := st }
      | some _ => { raised := false, emailAttempted := true, store := st }

/-- Helper: dispatch never modifies the store (trigger_lambda issues only a
SELECT). -/
theorem trigger_lambda_store_eq (st : Store) (p : LambdaPayload)
    (o : HttpOutcome) : (trigger_lambda st p o).store = st := by
  cases o <;> simp [trigger_lambda] <;>
    cases findUserEmailForSeries st p.series_id <;> simp

/-- C6: dispatch never raises into the scheduler or the admission gate, a
timeout of the rendering endpoint is handled exactly like an acknowledged
call (success), a transport error is swallowed, and no dispatch outcome
changes the store, so the already-created pending Work Item row still
exists after every dispatch outcome. -/
theorem dispatch_never_raises_and_keeps_work_item (st : Store)
    (p : LambdaPayload) (o : HttpOutcome) :
    (trigger_lambda st p o).raised = false ∧
    trigger_lambda st p HttpOutcome.timedOut =
      trigger_lambda st p HttpOutcome.acknowledged ∧
    (trigger_lambda st p o).store.videos = st.videos := by
  refine ⟨?_, rfl, ?_⟩
  · cases o <;> simp [trigger_lambda] <;>
      cases findUserEmailForSeries st p.series_id <;> simp
  · rw [trigger_lambda_store_eq]

/-- C5: whenever the gate admits, the store gains exactly one new Video row
with status pending owned by the admitted series, and the event trace shows
the insert, then the commit, and only then the dispatch call. -/
theorem accept_creates_one_pending_committed_before_dispatch (st : Store)
    (s : Series) (now : ℚ) (newId : Nat)
    (h : (processSeries now st s newId).result = GateResult.Accept) :
    (processSeries now st s newId).store.videos =
      st.videos ++ [{ id := newId, seriesId := s.id, status := "pending",
                      createdAt := now, updatedAt := now }] ∧
    (processSeries now st s newId).events =
      [Event.insert { id := newId, seriesId := s.id, status := "pending",
                      createdAt := now, updatedAt := now },
       Event.commit,
       Event.dispatch (mkPayload s newId)] := by
  by_cases hdue : lastVideoDate st.videos s + 7 / (s.frequency : ℚ) ≤ now
  · by_cases hp : pendingCount st.videos s.id == 0
    · constructor <;> simp [processSeries, hdue, hp]
    · exact absurd h (by simp [processSeries, hdue, hp])
  · exact absurd h (by simp [processSeries, hdue])

/-- C5 witness: at the fixture store at time 1, the gate admits and the
store and trace are exactly as stated. -/
theorem accept_creates_one_pending_committed_before_dispatch_witness :
    (processSeries 1 stFix sFix 5).store.videos =
      stFix.videos ++ [{ id := 5, seriesId := sFix.id, status := "pending",
                         createdAt := 1, updatedAt := 1 }] ∧
    (processSeries 1 stFix sFix 5).events =
      [Event.insert { id := 5, seriesId := sFix.id, status := "pending",
                      createdAt := 1, updatedAt := 1 },
       Event.commit,
       Event.dispatch (mkPayload sFix 5)] :=
  accept_creates_one_pending_committed_before_dispatch stFix sFix 1 5
    (of_decide_eq_true (by with_unfolding_all rfl))

-- Inbound endpoint (app.py create_series, lines 472-576).

/-- HTTP response envelope returned by the endpoint: status code plus the
JSON fields `status` and `message` (the optional `data` field carries the
video and series ids on success and is determined by the request). -/
structure ApiResponse where
  httpCode : Nat
  status : String
  message : String
deriving DecidableEq

/-- Embedding of the lookup query at app.py lines 490-498:
SELECT ... FROM "Video" v JOIN "Series" s ON v."seriesId" = s.id
WHERE v.id = videoId AND s.id = seriesId. -/
def findVideoJoin (st : Store) (videoId seriesId : Nat) :
    Option (Series × Video) :=
  match st.series.find? (fun s => s.id == seriesId) with
  | none => none
  | some s =>
      match st.videos.find? (fun v => v.id == videoId && v.seriesId == s.id) with
      | none => none
      | some v => some (s, v)

/-- Embedding of the create_series endpoint (app.py lines 472-576).
`storeFailure` models an unexpected exception anywhere in the handler
(caught at lines 564-576 and turned into a 500 envelope); otherwise the
handler looks up the (video, series) pair, returns 404 when the join is
empty (lines 502-511), 400 when the video status is not 'pending' (lines
513-518), and on success calls trigger_lambda and returns 200 (lines
528-558).  The handler runs no INSERT or UPDATE. -/
def create_series (st : Store) (seriesId videoId : Nat) (storeFailure : Bool)
    (outcome : HttpOutcome) : ApiResponse × Store :=
  if storeFailure then
    ({ httpCode := 500, status := "error", message := "Internal server error" }, st)
  else
    match findVideoJoin st videoId seriesId with
    | none =>
        ({ httpCode := 404, status := "error", message := "Video not found" }, st)
    | some (s, v) =>
        if v.status != "pending" then
          ({ httpCode := 400, status := "error",
             message := "Video not in pending status" }, st)
        else
          let d := trigger_lambda st (mkPayload s videoId) outcome
          ({ httpCode := 200, status := "success",
             message := "Video generation started" }, d.store)

/-- C10: the inbound endpoint never writes to the store — on every path
(success, 404, 400, 500) the store it returns is the store it was given. -/
theorem create_series_never_writes (st : Store) (seriesId videoId : Nat)
    (storeFailure : Bool) (outcome : HttpOutcome) :
    (create_series st seriesId videoId storeFailure outcome).2 = st := by
  unfold create_series
  by_cases hf : storeFailure
  · simp [hf]
  · simp only [hf, if_false, Bool.false_eq_true]
    match hj : findVideoJoin st videoId seriesId with
    | none => simp
    | some (s, v) =>
        by_cases hp : v.status != "pending"
        · simp [hp]
        · simp [hp, trigger_lambda_store_eq]

/-- C8 (amended): the endpoint always answers with the JSON envelope
\x7bstatus, message, data?\x7d; the code is 500 exactly on an unexpected
failure, 404 exactly when the (video, series) join is empty, 400 exactly
when the referenced video is not 'pending', 200 exactly when it is pending;
the status field says success exactly on 200; and no request ever yields a
403 — the handler performs no subscription check. -/
theorem create_series_response_characterization (st : Store)
    (seriesId videoId : Nat) (storeFailure : Bool) (outcome : HttpOutcome) :
    ((create_series st seriesId videoId storeFailure outcome).1.httpCode = 500 ↔
      storeFailure = true) ∧
    ((create_series st seriesId videoId storeFailure outcome).1.httpCode = 404 ↔
      storeFailure = false ∧ findVideoJoin st videoId seriesId = none) ∧
    ((create_series st seriesId videoId storeFailure outcome).1.httpCode = 400 ↔
      storeFailure = false ∧ ∃ s v, findVideoJoin st videoId seriesId = some (s, v) ∧
        v.status ≠ "pending") ∧
    ((create_series st seriesId videoId storeFailure outcome).1.httpCode = 200 ↔
      storeFailure = false ∧ ∃ s v, findVideoJoin st videoId seriesId = some (s, v) ∧
        v.status = "pending") ∧
    (create_series st seriesId videoId storeFailure outcome).1.httpCode ≠ 403 ∧
    ((create_series st seriesId videoId storeFailure outcome).1.status = "success" ↔
      (create_series st seriesId videoId storeFailure outcome).1.httpCode = 200) := by
  unfold create_series
  by_cases hf : storeFailure
  · simp [hf]
  · simp only [hf, if_false, Bool.false_eq_true]
    match hj : findVideoJoin st videoId seriesId with
    | none => simp
    | some (s, v) =>
        by_cases hp : v.status = "pending"
        · simp [hp]
          exact ⟨s, v, ⟨rfl, rfl⟩, hp⟩
        · simp [hp, bne_iff_ne]
          exact ⟨s, v, ⟨rfl, rfl⟩, hp⟩

-- Concurrency model of the admission step (claim C1).

/-- Commit phase of one admission attempt: the INSERT at app.py lines
275-280, guarded by the due flag and the pending count that this attempt
observed earlier with its own SELECT (app.py lines 263-268).  The two store
round-trips are separate SQL statements in the source, with no locking
between them, so a concurrent attempt can interleave between them. -/
def gateCommit (st : Store) (s : Series) (now : ℚ) (newId : Nat)
    (due : Bool) (observedPending : Nat) : GateResult × Store :=
  if due && observedPending == 0 then
    (GateResult.Accept,
     { st with videos := st.videos ++
        [{ id := newId, seriesId := s.id, status := "pending",
           createdAt := now, updatedAt := now }] })
  else
    (GateResult.Wait, st)

/-- Interleaved execution of two concurrent admission attempts for the same
series in which both attempts run their reads (the bulk enumeration read of
app.py lines 226-241 giving the last video date, and the pending-count
SELECT of lines 263-268) against the same committed store before either
runs its INSERT.  This schedule is allowed by the source because the check
and the insert are two separate statements with no transactional guard. -/
def racyDoubleAdmission (st : Store) (s : Series) (now : ℚ) (id1 id2 : Nat) :
    GateResult × GateResult × Store :=
  let due : Bool := decide (lastVideoDate st.videos s + 7 / (s.frequency : ℚ) ≤ now)
  let c1 := pendingCount st.videos s.id
  let c2 := pendingCount st.videos s.id
  let r1 := gateCommit st s now id1 due c1
  let r2 := gateCommit r1.2 s now id2 due c2
  (r1.1, r2.1, r2.2)

/-- C1: at the fixture store (one eligible, due series with no pending
video) the interleaving read-read-insert-insert makes both concurrent
admission attempts admit and leaves two pending Video rows for the series,
so the pending-check plus insert of the source is not an atomic admission
step and the at-most-one-pending guarantee fails under concurrency. -/
theorem racy_interleaving_double_admission :
    sFix ∈ eligibleSeries stFix ∧
    (racyDoubleAdmission stFix sFix 1 100 101).1 = GateResult.Accept ∧
    (racyDoubleAdmission stFix sFix 1 100 101).2.1 = GateResult.Accept ∧
    pendingCount (racyDoubleAdmission stFix sFix 1 100 101).2.2.videos sFix.id = 2 :=
  of_decide_eq_true (by with_unfolding_all rfl)

-- Failure isolation within a tick (claim C7).

/-- Tick processing with a failure model: `fails sid = true` means the
store raises while the loop body handles the series with id `sid` (for
instance the pending-count SELECT fails).  In the source the only
try/except around the loop is the per-tick one at app.py lines 221 and
313-318, so an exception thrown inside the loop body aborts the remaining
iterations of the current tick; the handler logs it and the loop survives
to the next tick. -/
def tickRun (now : ℚ) (fails : Nat → Bool) :
    List Series → Store × Nat → Store × Nat
  | [], acc => acc
  | s :: rest, acc =>
      if fails s.id then acc
      else tickRun now fails rest (tickStep now acc s)

/-- Embedding of one scheduler tick under the failure model. -/
def tickWithFailures (st : Store) (now : ℚ) (firstId : Nat)
    (fails : Nat → Bool) : Store × Nat :=
  tickRun now fails (eligibleSeries st) (st, firstId)

/-- Fixture second series, also eligible and due, listed after `sFix`. -/
def sFix2 : Series :=
  { id := 2, userId := 1, theme := "t2", destinationType := "email",
    destinationId := "d2", destinationEmail := "e2@x", voice := "v",
    language := "en", durationRange := "30-60", frequency := 7,
    status := "active", createdAt := 0 }

/-- Fixture store with two eligible, due series and no videos. -/
def stTwo : Store :=
  { users := [{ id := 1, email := "u@x" }]
    subscriptions := [{ userId := 1, planId := 3, status := "active" }]
    plans := [{ id := 3, name := "PRO" }]
    series := [sFix, sFix2]
    videos := []
    scheduleEntries := [] }

/-- C7 counterexample: with both fixture series eligible, due and free of
pending videos, a store failure while processing the first series leaves
the second series unprocessed in that tick (no video is created for it),
although the failure-free tick creates one video for each; so a failure on
one target does stop the processing of the remaining targets. -/
theorem tick_failure_stops_remaining_targets :
    sFix2 ∈ eligibleSeries stTwo ∧
    pendingCount stTwo.videos sFix2.id = 0 ∧
    (tickWithFailures stTwo 1 50 (fun i => i == 1)).1.videos = [] ∧
    pendingCount ((tick stTwo 1 50).1).videos sFix2.id = 1 :=
  of_decide_eq_true (by with_unfolding_all rfl)

/-- C7 (amended): an exception raised while processing one series aborts
the remaining series of the current tick — the tick under the failure model
equals the failure-free fold over only the prefix of series enumerated
before the failing one; the already processed prefix keeps its committed
effects and the tick itself returns normally (the per-tick handler catches
the exception). -/
theorem tick_failure_aborts_at_failing_target (now : ℚ) (fails : Nat → Bool)
    (pre post : List Series) (s : Series) (acc : Store × Nat)
    (hpre : ∀ t ∈ pre, fails t.id = false) (hs : fails s.id = true) :
    tickRun now fails (pre ++ s :: post) acc = pre.foldl (tickStep now) acc := by
  induction pre generalizing acc with
  | nil => simp [tickRun, hs]
  | cons t rest ih =>
      have ht : fails t.id = false := hpre t (by simp)
      simp only [List.cons_append, tickRun, ht, Bool.false_eq_true, if_false,
        List.foldl_cons]
      exact ih (tickStep now acc t) (fun u hu => hpre u (List.mem_cons_of_mem _ hu))

/-- C7 amended witness: in the two-series fixture with the first series
failing, the tick stops after the empty prefix and returns the start state. -/
theorem tick_failure_aborts_at_failing_target_witness :
    tickRun 1 (fun i => i == 1) ([] ++ sFix :: [sFix2]) (stTwo, 50) =
      List.foldl (tickStep 1) (stTwo, 50) [] :=
  tick_failure_aborts_at_failing_target 1 (fun i => i == 1) [] [sFix2] sFix
    (stTwo, 50) (fun t ht => by simp at ht) (by decide)

/-- Fixture store for the endpoint: series 1 with a pending video 10, owned
by user 1 who holds no subscription at all. -/
def stNoSub : Store :=
  { users := [{ id := 1, email := "u@x" }]
    subscriptions := []
    plans := []
    series := [sFix]
    videos := [{ id := 10, seriesId := 1, status := "pending",
                 createdAt := 0, updatedAt := 0 }]
    scheduleEntries := [] }

/-- C8 counterexample: a request whose account has no active subscription
is answered with 200, not 403 — the endpoint never checks the subscription. -/
theorem create_series_no_subscription_returns_200 :
    hasActiveSubscription stNoSub 1 = false ∧
    (create_series stNoSub 1 10 false HttpOutcome.acknowledged).1.httpCode = 200 :=
  of_decide_eq_true (by with_unfolding_all rfl)

/-- C8 amended witness: the characterization evaluated at the fixture
request gives the 200 envelope for the pending video. -/
theorem create_series_response_characterization_witness :
    (create_series stNoSub 1 10 false HttpOutcome.acknowledged).1.httpCode = 200 :=
  ((create_series_response_characterization stNoSub 1 10 false
      HttpOutcome.acknowledged).2.2.2.1).mpr
    ⟨rfl, sFix, { id := 10, seriesId := 1, status := "pending",
                  createdAt := 0, updatedAt := 0 },
      of_decide_eq_true (by with_unfolding_all rfl), rfl⟩

-- Batch pre-scheduler (claim C9).

/-- Modelled from the spec: the Batch Pre-Scheduler of spec section 4.4 is
not implemented anywhere under src/ (no revision in src/app.py creates
ScheduleEntry rows or future Work Items); this definition follows the words
of the spec: for a Target whose tier is not the entry-level tier, compute
`period = 7.0 / cadence` days and create exactly `cadence` future Work
Items plus matching Schedule Entries, spaced at period-day intervals
starting one period after now, each entry tagged with a fixed delivery
platform and status scheduled; for an entry-level-tier Target create
nothing. -/
def preschedule (target : Series) (isEntryTier : Bool) (now : ℚ)
    (idBase : Nat) : List Video × List ScheduleEntry :=
  if isEntryTier then
    ([], [])
  else
    let period : ℚ := 7 / (target.frequency : ℚ)
    let pairs := (List.range target.frequency).map (fun (k : Nat) =>
      let t : ℚ := now + ((k : ℚ) + 1) * period
      let v : Video := { id := idBase + 2 * k, seriesId := target.id,
                         status := "pending", createdAt := t, updatedAt := t }
      let e : ScheduleEntry := { id := idBase + 2 * k + 1, seriesId := target.id,
                                 videoId := v.id, scheduledAt := t,
                                 platform := "tiktok", status := "scheduled" }
      (v, e))
    (pairs.map Prod.fst, pairs.map Prod.snd)

/-- C9: for a non-entry-tier Target with cadence f the pre-scheduler
creates exactly f future Work Items and f matching Schedule Entries with
status scheduled, the k-th pair carrying the target timestamp
now + (k+1) * (7/f) — consecutive entries 7/f days apart starting one
period after now; for an entry-level-tier Target it creates nothing. -/
theorem preschedule_counts_and_spacing (target : Series) (now : ℚ)
    (idBase : Nat) :
    preschedule target true now idBase = ([], []) ∧
    (preschedule target false now idBase).1.length = target.frequency ∧
    (preschedule target false now idBase).2.length = target.frequency ∧
    (∀ k, k < target.frequency →
      ∃ v e, (preschedule target false now idBase).1[k]? = some v ∧
        (preschedule target false now idBase).2[k]? = some e ∧
        e.scheduledAt = now + ((k : ℚ) + 1) * (7 / (target.frequency : ℚ)) ∧
        e.status = "scheduled" ∧ e.seriesId = target.id ∧ e.videoId = v.id ∧
        v.seriesId = target.id ∧ v.createdAt = e.scheduledAt) := by
  refine ⟨rfl, ?_, ?_, ?_⟩
  · simp [preschedule]
  · simp [preschedule]
  · intro k hk
    have h1 : (preschedule target false now idBase).1[k]? =
        some { id := idBase + 2 * k, seriesId := target.id, status := "pending",
               createdAt := now + ((k : ℚ) + 1) * (7 / (target.frequency : ℚ)),
               updatedAt := now + ((k : ℚ) + 1) * (7 / (target.frequency : ℚ)) } := by
      simp [preschedule, List.getElem?_map, List.getElem?_range hk]
    have h2 : (preschedule target false now idBase).2[k]? =
        some { id := idBase + 2 * k + 1, seriesId := target.id,
               videoId := idBase + 2 * k,
               scheduledAt := now + ((k : ℚ) + 1) * (7 / (target.frequency : ℚ)),
               platform := "tiktok", status := "scheduled" } := by
      simp [preschedule, List.getElem?_map, List.getElem?_range hk]
    exact ⟨_, _, h1, h2, rfl, rfl, rfl, rfl, rfl, rfl⟩

/-- C9 witness: evaluated for the fixture series (cadence 7) the
pre-scheduler creates seven work items and seven entries, and the first
entry is scheduled one period after now with status scheduled. -/
theorem preschedule_counts_and_spacing_witness :
    preschedule sFix true 0 100 = ([], []) ∧
    (preschedule sFix false 0 100).1.length = 7 ∧
    (preschedule sFix false 0 100).2.length = 7 :=
  ⟨(preschedule_counts_and_spacing sFix 0 100).1,
   (preschedule_counts_and_spacing sFix 0 100).2.1,
   (preschedule_counts_and_spacing sFix 0 100).2.2.1⟩

-- Invariant lemmas about a tick, used for claims C3 and C4.

/-- Helper: one tick step either leaves the store unchanged or appends one
pending video for the processed series. -/
theorem tickStep_store_cases (now : ℚ) (acc : Store × Nat) (s : Series) :
    (tickStep now acc s).1 = acc.1 ∨
    (tickStep now acc s).1 =
      { acc.1 with videos := acc.1.videos ++
          [{ id := acc.2, seriesId := s.id, status := "pending",
             createdAt := now, updatedAt := now }] } := by
  by_cases hdue : lastVideoDate acc.1.videos s + 7 / (s.frequency : ℚ) ≤ now
  · by_cases hp : pendingCount acc.1.videos s.id = 0
    · right; simp [tickStep, processSeries, hdue, beq_iff_eq, hp]
    · left; simp [tickStep, processSeries, hdue, beq_iff_eq, hp]
  · left; simp [tickStep, processSeries, hdue]

/-- Helper: a tick step does not touch the series, user, subscription or
plan tables. -/
theorem tickStep_nonvideo_tables (now : ℚ) (acc : Store × Nat) (s : Series) :
    (tickStep now acc s).1.series = acc.1.series ∧
    (tickStep now acc s).1.users = acc.1.users ∧
    (tickStep now acc s).1.subscriptions = acc.1.subscriptions ∧
    (tickStep now acc s).1.plans = acc.1.plans := by
  rcases tickStep_store_cases now acc s with h | h <;> rw [h] <;>
    exact ⟨rfl, rfl, rfl, rfl⟩

/-- Helper: a whole tick fold does not touch the series, user, subscription
or plan tables. -/
theorem foldl_tick_nonvideo_tables (now : ℚ) :
    ∀ (L : List Series) (acc : Store × Nat),
      ((L.foldl (tickStep now) acc)).1.series = acc.1.series ∧
      ((L.foldl (tickStep now) acc)).1.users = acc.1.users ∧
      ((L.foldl (tickStep now) acc)).1.subscriptions = acc.1.subscriptions ∧
      ((L.foldl (tickStep now) acc)).1.plans = acc.1.plans
  | [], acc => ⟨rfl, rfl, rfl, rfl⟩
  | s :: rest, acc => by
      have hrest := foldl_tick_nonvideo_tables now rest (tickStep now acc s)
      have hstep := tickStep_nonvideo_tables now acc s
      simp only [List.foldl_cons]
      exact ⟨hrest.1.trans hstep.1, hrest.2.1.trans hstep.2.1,
        hrest.2.2.1.trans hstep.2.2.1, hrest.2.2.2.trans hstep.2.2.2⟩

/-- Helper: the enumeration only reads the series, user, subscription and
plan tables. -/
theorem eligibleSeries_congr (a b : Store) (hs : a.series = b.series)
    (hu : a.users = b.users) (hsub : a.subscriptions = b.subscriptions)
    (hp : a.plans = b.plans) : eligibleSeries a = eligibleSeries b := by
  unfold eligibleSeries userExists hasActiveSubscription
  simp only [hs, hu, hsub, hp]

/-- Helper: pending counts add over list append. -/
theorem pendingCount_append (vs tl : List Video) (i : Nat) :
    pendingCount (vs ++ tl) i = pendingCount vs i + pendingCount tl i := by
  simp [pendingCount, List.filter_append]

/-- Helper: appending videos of other series does not change the last
video date of a series. -/
theorem lastVideoDate_append_ne (vs tl : List Video) (s : Series)
    (h : ∀ v ∈ tl, v.seriesId ≠ s.id) :
    lastVideoDate (vs ++ tl) s = lastVideoDate vs s := by
  unfold lastVideoDate
  have hnil : tl.filter (fun v => v.seriesId == s.id) = [] := by
    rw [List.filter_eq_nil_iff]
    intro v hv
    simpa using h v hv
  rw [List.filter_append, hnil, List.append_nil]

/-- A series is blocked in a store when it already has a pending video or
its next due date is still in the future; a blocked series is not admitted
by a tick step. -/
def TickBlocked (now : ℚ) (st : Store) (s : Series) : Prop :=
  0 < pendingCount st.videos s.id ∨
    now < lastVideoDate st.videos s + 7 / (s.frequency : ℚ)

/-- Helper: a blocked series makes the tick step a no-op. -/
theorem tickStep_eq_self_of_blocked (now : ℚ) (acc : Store × Nat) (s : Series)
    (h : TickBlocked now acc.1 s) : tickStep now acc s = acc := by
  have hout : processSeries now acc.1 s acc.2 =
      { store := acc.1, result := GateResult.Wait, events := [] } := by
    rcases h with hp | hlt
    · by_cases hdue : lastVideoDate acc.1.videos s + 7 / (s.frequency : ℚ) ≤ now
      · have hne : pendingCount acc.1.videos s.id ≠ 0 := Nat.pos_iff_ne_zero.mp hp
        simp [processSeries, hdue, beq_iff_eq, hne]
      · simp [processSeries, hdue]
    · have hdue : ¬ lastVideoDate acc.1.videos s + 7 / (s.frequency : ℚ) ≤ now :=
        not_le.mpr hlt
      simp [processSeries, hdue]
  simp [tickStep, hout]

/-- Helper: once a series is blocked it stays blocked through any further
tick steps (appended videos are pending, so an append for the same series
keeps it pending-blocked, and an append for another series changes neither
its pending count nor its last video date). -/
theorem tickStep_preserves_blocked (now : ℚ) (acc : Store × Nat)
    (s t : Series) (h : TickBlocked now acc.1 s) :
    TickBlocked now (tickStep now acc t).1 s := by
  rcases tickStep_store_cases now acc t with hid | happ
  · rw [hid]; exact h
  · rw [happ]
    rcases h with hp | hlt
    · left
      simp only [pendingCount_append]
      exact Nat.lt_of_lt_of_le hp (Nat.le_add_right _ _)
    · by_cases hts : t.id = s.id
      · left
        simp only [pendingCount_append]
        have hone : pendingCount
            [{ id := acc.2, seriesId := t.id, status := "pending",
               createdAt := now, updatedAt := now }] s.id = 1 := by
          simp [pendingCount, hts]
        omega
      · right
        rw [lastVideoDate_append_ne]
        · exact hlt
        · intro v hv
          simp only [List.mem_singleton] at hv
          rw [hv]
          exact hts

/-- Helper: blockedness survives a whole fold. -/
theorem foldl_tick_preserves_blocked (now : ℚ) (s : Series) :
    ∀ (L : List Series) (acc : Store × Nat), TickBlocked now acc.1 s →
      TickBlocked now ((L.foldl (tickStep now) acc)).1 s
  | [], _, h => h
  | t :: rest, acc, h => by
      simp only [List.foldl_cons]
      exact foldl_tick_preserves_blocked now s rest (tickStep now acc t)
        (tickStep_preserves_blocked now acc s t h)

/-- Helper: processing a series leaves it blocked — it either inserted a
pending video, found one already pending, or found the series not yet due. -/
theorem tickStep_blocks_processed (now : ℚ) (acc : Store × Nat) (s : Series) :
    TickBlocked now (tickStep now acc s).1 s := by
  by_cases hdue : lastVideoDate acc.1.videos s + 7 / (s.frequency : ℚ) ≤ now
  · by_cases hp : pendingCount acc.1.videos s.id = 0
    · left
      have happ : (tickStep now acc s).1.videos = acc.1.videos ++
          [{ id := acc.2, seriesId := s.id, status := "pending",
             createdAt := now, updatedAt := now }] := by
        simp [tickStep, processSeries, hdue, beq_iff_eq, hp]
      rw [happ, pendingCount_append]
      have hone : pendingCount
          [{ id := acc.2, seriesId := s.id, status := "pending",
             createdAt := now, updatedAt := now }] s.id = 1 := by
        simp [pendingCount]
      omega
    · have hid : (tickStep now acc s).1 = acc.1 := by
        simp [tickStep, processSeries, hdue, beq_iff_eq, hp]
      rw [hid]
      exact Or.inl (Nat.pos_of_ne_zero hp)
  · have hid : (tickStep now acc s).1 = acc.1 := by
      simp [tickStep, processSeries, hdue]
    rw [hid]
    exact Or.inr (not_le.mp hdue)

/-- Helper: after a tick fold every enumerated series is blocked. -/
theorem foldl_tick_blocks_all (now : ℚ) :
    ∀ (L : List Series) (acc : Store × Nat) (s : Series), s ∈ L →
      TickBlocked now ((L.foldl (tickStep now) acc)).1 s
  | t :: rest, acc, s, hmem => by
      simp only [List.foldl_cons]
      rcases List.mem_cons.mp hmem with hst | hrest
      · subst hst
        exact foldl_tick_preserves_blocked now s rest (tickStep now acc s)
          (tickStep_blocks_processed now acc s)
      · exact foldl_tick_blocks_all now rest (tickStep now acc t) s hrest

/-- Helper: a fold whose every step fixes the accumulator fixes it. -/
theorem foldl_fixed_of_step_fixed {α β : Type} (f : β → α → β) (a : β) :
    ∀ (L : List α), (∀ x ∈ L, f a x = a) → L.foldl f a = a
  | [], _ => rfl
  | x :: rest, h => by
      simp only [List.foldl_cons, h x (List.mem_cons_self x rest)]
      exact foldl_fixed_of_step_fixed f a rest
        (fun y hy => h y (List.mem_cons_of_mem x hy))

/-- C3: running the full tick logic twice in immediate succession with no
intervening time passage changes nothing on the second run — the store
after the second tick is exactly the store after the first, so no
additional Work Item is created for any Target. -/
theorem tick_twice_creates_nothing_new (st : Store) (now : ℚ) (n m : Nat) :
    (tick ((tick st now n).1) now m).1 = (tick st now n).1 := by
  set st1 := (tick st now n).1 with hst1
  have hfields := foldl_tick_nonvideo_tables now (eligibleSeries st) (st, n)
  have hL : eligibleSeries st1 = eligibleSeries st :=
    eligibleSeries_congr _ _ hfields.1 hfields.2.1 hfields.2.2.1 hfields.2.2.2
  have hblocked : ∀ s ∈ eligibleSeries st, TickBlocked now st1 s := by
    intro s hs
    exact foldl_tick_blocks_all now (eligibleSeries st) (st, n) s hs
  have hfix : ∀ s ∈ eligibleSeries st,
      tickStep now (st1, m) s = (st1, m) := by
    intro s hs
    exact tickStep_eq_self_of_blocked now _ s (hblocked s hs)
  calc (tick st1 now m).1
      = ((eligibleSeries st1).foldl (tickStep now) (st1, m)).1 := rfl
    _ = ((eligibleSeries st).foldl (tickStep now) (st1, m)).1 := by rw [hL]
    _ = ((st1, m) : Store × Nat).1 := by
        rw [foldl_fixed_of_step_fixed (tickStep now) (st1, m)
          (eligibleSeries st) hfix]
    _ = st1 := rfl

/-- Helper: every video added by a tick belongs to a series of the
enumerated list; the pre-existing videos are untouched. -/
theorem foldl_tick_new_videos (now : ℚ) :
    ∀ (L : List Series) (acc : Store × Nat),
      ∃ tl, ((L.foldl (tickStep now) acc)).1.videos = acc.1.videos ++ tl ∧
        ∀ v ∈ tl, ∃ t ∈ L, v.seriesId = t.id
  | [], acc => ⟨[], by simp, by simp⟩
  | s :: rest, acc => by
      obtain ⟨tl2, htl2, hmem2⟩ :=
        foldl_tick_new_videos now rest (tickStep now acc s)
      rcases tickStep_store_cases now acc s with hid | happ
      · refine ⟨tl2, ?_, ?_⟩
        · rw [List.foldl_cons, htl2, hid]
        · intro v hv
          obtain ⟨t, ht, hvt⟩ := hmem2 v hv
          exact ⟨t, List.mem_cons_of_mem s ht, hvt⟩
      · refine ⟨{ id := acc.2, seriesId := s.id, status := "pending",
                  createdAt := now, updatedAt := now } :: tl2, ?_, ?_⟩
        · rw [List.foldl_cons, htl2, happ]
          simp
        · intro v hv
          rcases List.mem_cons.mp hv with hv1 | hv2
          · exact ⟨s, List.mem_cons_self s rest, by rw [hv1]⟩
          · obtain ⟨t, ht, hvt⟩ := hmem2 v hv2
            exact ⟨t, List.mem_cons_of_mem s ht, hvt⟩

/-- C4: a series that is not active, or whose owning user has no active
subscription row, is excluded from the enumeration of every scheduler tick,
and every video a tick adds belongs to an enumerated series — so such a
target is never admitted no matter how overdue it is. -/
theorem ineligible_target_excluded (st : Store) (s : Series) (now : ℚ)
    (n : Nat)
    (h : s.status ≠ "active" ∨
      ∀ sub ∈ st.subscriptions, sub.userId = s.userId → sub.status ≠ "active") :
    s ∉ eligibleSeries st ∧
    ∀ v ∈ ((tick st now n).1).videos,
      v ∈ st.videos ∨ ∃ t ∈ eligibleSeries st, v.seriesId = t.id := by
  constructor
  · intro hmem
    have hpred := (List.mem_filter.mp hmem).2
    simp only [Bool.and_eq_true, beq_iff_eq] at hpred
    rcases h with hstatus | hsub
    · exact hstatus hpred.1.1
    · have hactive := hpred.2
      unfold hasActiveSubscription at hactive
      rw [List.any_eq_true] at hactive
      obtain ⟨sub, hsubmem, hsubcond⟩ := hactive
      simp only [Bool.and_eq_true, beq_iff_eq] at hsubcond
      exact hsub sub hsubmem hsubcond.1.1 hsubcond.1.2
  · obtain ⟨tl, htl, hmem⟩ :=
      foldl_tick_new_videos now (eligibleSeries st) (st, n)
    intro v hv
    rw [show ((tick st now n).1).videos =
        ((List.foldl (tickStep now) (st, n) (eligibleSeries st))).1.videos from rfl,
      htl] at hv
    rcases List.mem_append.mp hv with hv1 | hv2
    · exact Or.inl hv1
    · exact Or.inr (hmem v hv2)

/-- Fixture inactive series: identical to `sFix` but with status paused. -/
def sInactive : Series :=
  { sFix with id := 9, status := "paused" }

/-- Fixture store containing only the inactive series. -/
def stInactive : Store :=
  { stFix with series := [sInactive] }

/-- C4 witness: the paused fixture series is excluded from enumeration. -/
theorem ineligible_target_excluded_witness :
    (sInactive ∈ eligibleSeries stInactive) = False :=
  eq_false
    ((ineligible_target_excluded stInactive sInactive 0 0
      (Or.inl (by decide))).1)
